import Mathlib

/-!
Shallow embedding of the target-watcher program (package `watcher`,
file `watcher.go`) and proofs about its matching algorithm and event
watcher.

The OS is modelled as explicit state: every Windows API call the program
makes is represented by a field of `Window`, `OSState` or `WatcherOS`
recording the value that call returns in the modelled execution.  The
program functions are translated one-to-one from the Go source:
`getWindowText`, `getForegroundTarget`, `isProcessActive`,
`isWindowActive`, `FirstActiveTarget`, `StartEventWatcher`.

One semantic fact about the Go libraries is load-bearing and is recorded
as the definition `procCallErrNonNil`: in golang.org/x/sys/windows, the
method Call of LazyProc and Proc documents that the returned error is
ALWAYS non-nil (it is constructed from GetLastError even on success).
Hence the statement `if err != nil { return "", false }` that follows
the GetWindowThreadProcessId call in `getForegroundTarget` always takes
the early return, and the executable-name sub-step of the foreground
strategy is unreachable.
-/

/-- Substring containment on lists of characters, the semantics of the Go
function strings.Contains applied to the underlying character sequences
(for valid UTF-8 text, byte-level containment of one valid string in
another coincides with character-level containment because UTF-8 is
self-synchronizing).  Contains(s, "") is true for every s. -/
def goContainsChars (sub : List Char) : List Char → Bool
  | [] => sub.isPrefixOf []
  | c :: t => sub.isPrefixOf (c :: t) || goContainsChars sub t

/-- Go strings.Contains(s, sub): does s contain sub as a contiguous
substring. -/
def goContains (s sub : String) : Bool :=
  goContainsChars sub.data s.data

/-- Go strings.ToLower.  Lean's Char.toLower performs the ASCII case
mapping; Go additionally lower-cases non-ASCII letters.  The two agree on
ASCII text, and every statement below is phrased through `goToLower`
itself, so no theorem depends on the non-ASCII mapping. -/
def goToLower (s : String) : String :=
  String.mk (s.data.map Char.toLower)

/-- The keyword loop shared by all three strategies, translated from
`for _, keyword := range keywords { if strings.Contains(lowerCand, keyword)
{ return keyword, true } }`: the first keyword in `keywords` contained in
the (already lower-cased) candidate string. -/
def firstKeywordIn (keywords : List String) (lowerCand : String) : Option String :=
  keywords.find? (fun k => goContains lowerCand k)

/-- A top-level window as the program can observe it.  `titleLen` is the
value GetWindowTextLengthW returns for it (0 both for an empty title and
for a failed query), `titleRet` the value GetWindowTextW returns
(0 on failure), `titleText` the string decoded from the buffer
GetWindowTextW filled on success, `visible` whether IsWindowVisible
returns nonzero, and `pid` the process id GetWindowThreadProcessId
writes. -/
structure Window where
  titleLen : Nat
  titleRet : Nat
  titleText : String
  visible : Bool
  pid : Nat
deriving DecidableEq

/-- Size of the buffer `getWindowText` allocates for the GetWindowTextW
call: `make([]uint16, length+1)` where `length` is the result of the
separate GetWindowTextLengthW query. -/
def getWindowTextBufSize (w : Window) : Nat :=
  w.titleLen + 1

/-- Translation of `getWindowText`: query the text length, return "" if it
is zero; otherwise allocate a buffer of `getWindowTextBufSize` elements,
call GetWindowTextW with that buffer size, return "" if that call returns
zero, and otherwise return the decoded buffer contents. -/
def getWindowText (w : Window) : String :=
  if w.titleLen = 0 then ""
  else if w.titleRet = 0 then ""
  else w.titleText

/-- Result of the test `err != nil` applied to the error returned by
(*LazyProc).Call in golang.org/x/sys/windows.  That error is documented to
be always non-nil (the callee must inspect the primary return value
instead), so the test is constantly true. -/
def procCallErrNonNil : Bool :=
  true

/-- Go path/filepath separator test on Windows: both the backslash and the
slash separate path elements. -/
def isPathSeparator (c : Char) : Bool :=
  c = '\\' || c = '/'

/-- Length of the leading volume name of a Windows path, as computed by Go
filepath.VolumeName: two characters for a drive specification such as
"C:", and for a UNC path the prefix up to the end of the share component;
zero otherwise. -/
def volumeNameLenGo (s : List Char) : Nat :=
  match s with
  | a :: b :: rest =>
    if b = ':' && (('a' ≤ a && a ≤ 'z') || ('A' ≤ a && a ≤ 'Z')) then 2
    else
      -- UNC path: at least five characters, two leading separators, a
      -- host component not starting with a dot, then a separator and a
      -- share component; the result is the length up to the end of the
      -- share component.  Mirrors the scanning loop of volumeNameLen.
      let l := s.length
      if 5 ≤ l && isPathSeparator a && isPathSeparator b then
        match rest with
        | c :: _ =>
          if !isPathSeparator c && c ≠ '.' then
            let host := (s.drop 3).takeWhile (fun ch => !isPathSeparator ch)
            let n := 3 + host.length
            if n < l - 1 then
              match s.drop (n + 1) with
              | [] => 0
              | d :: _ =>
                if isPathSeparator d then 0
                else if d = '.' then 0
                else
                  let share := (s.drop (n + 1)).takeWhile (fun ch => !isPathSeparator ch)
                  (n + 1) + share.length
            else 0
          else 0
        | [] => 0
      else 0
  | _ => 0

/-- Translation of Go filepath.Base on Windows: "." for the empty path;
otherwise strip trailing separators, drop the volume name, keep the part
after the last separator, and return a single separator if nothing
remains. -/
def baseName (path : String) : String :=
  if path = "" then "."
  else
    let p1 := (path.data.reverse.dropWhile isPathSeparator).reverse
    let p2 := p1.drop (volumeNameLenGo p1)
    let p3 := (p2.reverse.takeWhile (fun c => !isPathSeparator c)).reverse
    if p3 = [] then "\\" else String.mk p3

/-- The OS state visible to one invocation of the matcher.  `foreground`
is the window GetForegroundWindow reports (none for a null handle);
`openProcess` gives the handle OpenProcess returns for a pid (0 on
failure); `moduleFileNameRet` and `moduleFileName` give the return value
and the decoded buffer of GetModuleFileNameExW for a process handle;
`procEnum` is the result of ps.Processes, none when that call returns an
error, otherwise the executable names of the running processes in order;
`winEnum` is the sequence of top-level windows EnumWindows delivers to
its callback, in enumeration order. -/
structure OSState where
  foreground : Option Window
  openProcess : Nat → Nat
  moduleFileNameRet : Nat → Nat
  moduleFileName : Nat → String
  procEnum : Option (List String)
  winEnum : List Window

/-- Sub-step of the foreground strategy after the title loop found
nothing, translated statement by statement from `getForegroundTarget`:
the GetWindowThreadProcessId call followed by `if err != nil`, the zero
pid check, OpenProcess, the deferred CloseHandle, GetModuleFileNameExW
and the keyword loop over the lower-cased base name of the executable
path.  Besides the (string, bool) result it returns the list of process
handles opened and the list of handles on which CloseHandle was invoked,
in order. -/
def fgProcessStep (os : OSState) (w : Window) (keywords : List String) :
    (String × Bool) × (List Nat × List Nat) :=
  if procCallErrNonNil then (("", false), ([], []))
  else if w.pid = 0 then (("", false), ([], []))
  else
    let handle := os.openProcess w.pid
    if handle = 0 then (("", false), ([], []))
    else
      -- from here on the deferred CloseHandle runs on every return path
      let n := os.moduleFileNameRet handle
      if n > 0 then
        match firstKeywordIn keywords (goToLower (baseName (os.moduleFileName handle))) with
        | some keyword => ((keyword, true), ([handle], [handle]))
        | none => (("", false), ([handle], [handle]))
      else (("", false), ([handle], [handle]))

/-- Translation of `getForegroundTarget` with the handle trace of
`fgProcessStep` carried along: query the foreground window, return no
match for a null handle; retrieve its title, and if it is nonempty run
the keyword loop over the lower-cased title, returning the first keyword
found; otherwise continue with the owning-process sub-step. -/
def getForegroundTargetFull (os : OSState) (keywords : List String) :
    (String × Bool) × (List Nat × List Nat) :=
  match os.foreground with
  | none => (("", false), ([], []))
  | some w =>
    let title := getWindowText w
    match (if title ≠ "" then firstKeywordIn keywords (goToLower title) else none) with
    | some keyword => ((keyword, true), ([], []))
    | none => fgProcessStep os w keywords

/-- The (string, bool) result of the foreground strategy. -/
def getForegroundTarget (os : OSState) (keywords : List String) : String × Bool :=
  (getForegroundTargetFull os keywords).1

/-- Inner loop of `isProcessActive` over the enumerated processes: for
each process in order, run the keyword loop over its lower-cased
executable name and return on the first hit. -/
def procLoop (keywords : List String) : List String → String × Bool
  | [] => ("", false)
  | p :: ps =>
    match firstKeywordIn keywords (goToLower p) with
    | some keyword => (keyword, true)
    | none => procLoop keywords ps

/-- Translation of `isProcessActive`: enumerate all running processes
(ps.Processes); on an enumeration error return no match, otherwise scan
the executable names in order. -/
def isProcessActive (os : OSState) (keywords : List String) : String × Bool :=
  match os.procEnum with
  | none => ("", false)
  | some ps => procLoop keywords ps

/-- The EnumWindows callback of `isWindowActive`, with the captured
`foundKeyword` variable passed explicitly: skip (continue, return 1)
windows that are not visible; retrieve the title; if it is nonempty and
the keyword loop finds a keyword, record it and return 0 to stop the
enumeration; otherwise return 1 to continue. -/
def enumCallback (keywords : List String) (found : String) (w : Window) :
    String × Nat :=
  if w.visible = false then (found, 1)
  else
    let title := getWindowText w
    if title ≠ "" then
      match firstKeywordIn keywords (goToLower title) with
      | some keyword => (keyword, 0)
      | none => (found, 1)
    else (found, 1)

/-- EnumWindows semantics: invoke the callback on each delivered window in
order until it returns 0.  Returns the final value of the captured
`foundKeyword` variable together with the list of windows on which the
callback was actually invoked. -/
def enumWindowsRun (keywords : List String) (found : String) :
    List Window → String × List Window
  | [] => (found, [])
  | w :: ws =>
    let c := enumCallback keywords found w
    if c.2 = 0 then (c.1, [w])
    else
      let r := enumWindowsRun keywords c.1 ws
      (r.1, w :: r.2)

/-- Translation of `isWindowActive`: run the enumeration with
`foundKeyword` initialized to the empty string (an EnumWindows failure
only logs a warning and changes nothing), then report a match exactly
when `foundKeyword` is nonempty. -/
def isWindowActive (os : OSState) (keywords : List String) : String × Bool :=
  let foundKeyword := (enumWindowsRun keywords "" os.winEnum).1
  if foundKeyword ≠ "" then (foundKeyword, true) else ("", false)

/-- The windows the EnumWindows callback of `isWindowActive` is invoked
on, in order: an observer of how far the enumeration proceeds. -/
def windowsExamined (os : OSState) (keywords : List String) : List Window :=
  (enumWindowsRun keywords "" os.winEnum).2

/-- Translation of `FirstActiveTarget`: collect the keys of the target
map (the Go map iteration order is unspecified; the association list
order stands for an arbitrary such order), then try the three strategies
in fixed order, returning at the first one whose boolean is true. -/
def FirstActiveTarget (targets : List (String × String)) (os : OSState) :
    String × Bool :=
  let keywords := targets.map Prod.fst
  let fg := getForegroundTarget os keywords
  if fg.2 then (fg.1, true)
  else
    let pr := isProcessActive os keywords
    if pr.2 then (pr.1, true)
    else
      let wi := isWindowActive os keywords
      if wi.2 then (wi.1, true) else ("", false)

/-- The three detection strategies, for stating which of them an
invocation of `FirstActiveTarget` consults. -/
inductive Strategy
  | foreground
  | processList
  | visibleWindows
deriving DecidableEq

/-- Observer of the control flow of `FirstActiveTarget`: the strategies it
consults, in order, mirroring its fallback chain exactly: the process
list is consulted only if the foreground strategy reported no match, and
the window enumeration only if the process list also reported none. -/
def consultedStrategies (targets : List (String × String)) (os : OSState) :
    List Strategy :=
  let keywords := targets.map Prod.fst
  if (getForegroundTarget os keywords).2 then [Strategy.foreground]
  else if (isProcessActive os keywords).2 then
    [Strategy.foreground, Strategy.processList]
  else [Strategy.foreground, Strategy.processList, Strategy.visibleWindows]

/-- One window of OS-state predicate: the first keyword the callback of
`isWindowActive` would record on window `w`, none when the window is
invisible, has an empty retrieved title, or matches no keyword. -/
def windowMatches (keywords : List String) (w : Window) : Option String :=
  if w.visible = true ∧ getWindowText w ≠ "" then
    firstKeywordIn keywords (goToLower (getWindowText w))
  else none

/-- Results of the OS calls made in one iteration of the message loop of
`StartEventWatcher`: the uintptr GetMessageW returns, and the last-error
values observed after TranslateMessage and after DispatchMessageW (the
error returned by Call is always non-nil, so the guard
`err != nil && err.(syscall.Errno) != 0` reduces to the errno being
nonzero). -/
structure MsgStep where
  getRet : Nat
  translateErrno : Nat
  dispatchErrno : Nat

/-- The OS state an execution of `StartEventWatcher` observes: the
SetWinEventHook results for the foreground hook and the create/destroy
hook (0 = registration failure), the UnhookWinEvent results for the two
deferred unhook calls (0 = failure), and the message-loop call results
for each successive iteration. -/
structure WatcherOS where
  hookForeground : Nat
  hookCreate : Nat
  unhookForegroundRet : Nat
  unhookCreateRet : Nat
  msgs : Nat → MsgStep

/-- Outcome of running the watcher goroutine for a bounded number of
message-loop iterations: `fatal d` when log.Fatalf terminated the whole
process with diagnostic `d` (deferred calls do not run), `exited ws` when
the message loop broke out and the deferred unhook calls ran, logging the
warnings `ws` in order, and `running` when the loop is still live after
the given number of iterations. -/
inductive RunOutcome
  | fatal (diag : String)
  | exited (warnings : List String)
  | running
deriving DecidableEq

/-- Diagnostic of the log.Fatalf for a failed foreground hook
registration. -/
def fatalForegroundHookDiag : String :=
  "Fatal: Could not set foreground event hook"

/-- Diagnostic of the log.Fatalf for a failed create/destroy hook
registration. -/
def fatalCreateHookDiag : String :=
  "Fatal: Could not set create/destroy event hook"

/-- Warning logged when unhooking the foreground event hook fails. -/
def warnUnhookForegroundDiag : String :=
  "Warning: Failed to unhook foreground event hook"

/-- Warning logged when unhooking the create/destroy event hook fails. -/
def warnUnhookCreateDiag : String :=
  "Warning: Failed to unhook create/destroy event hook"

/-- Diagnostic of the log.Fatalf on a nonzero errno after
TranslateMessage. -/
def fatalTranslateDiag : String :=
  "TranslateMessage failed"

/-- Diagnostic of the log.Fatalf on a nonzero errno after
DispatchMessageW. -/
def fatalDispatchDiag : String :=
  "DispatchMessageW failed"

/-- Warnings logged by the two deferred UnhookWinEvent calls when the
message loop exits.  Deferred functions run in reverse registration
order, so the create/destroy hook is unhooked first. -/
def shutdownWarnings (s : WatcherOS) : List String :=
  (if s.unhookCreateRet = 0 then [warnUnhookCreateDiag] else []) ++
    (if s.unhookForegroundRet = 0 then [warnUnhookForegroundDiag] else [])

/-- The test `int32(ret) == -1` applied to the uintptr GetMessageW
returned: the value truncated to its low 32 bits is all ones. -/
def getRetIsNegOne (n : Nat) : Bool :=
  n % 2 ^ 32 = 2 ^ 32 - 1

/-- The message loop of `StartEventWatcher`, run from iteration `i` for at
most `fuel` iterations: break (and run the deferred unhooks) when
int32 of the GetMessageW result is -1; otherwise terminate the process
fatally if the errno observed after TranslateMessage, or then after
DispatchMessageW, is nonzero; otherwise continue with the next
message. -/
def runMessageLoop (s : WatcherOS) : Nat → Nat → RunOutcome
  | _, 0 => RunOutcome.running
  | i, fuel + 1 =>
    let m := s.msgs i
    if getRetIsNegOne m.getRet then RunOutcome.exited (shutdownWarnings s)
    else if m.translateErrno ≠ 0 then RunOutcome.fatal fatalTranslateDiag
    else if m.dispatchErrno ≠ 0 then RunOutcome.fatal fatalDispatchDiag
    else runMessageLoop s (i + 1) fuel

/-- Translation of the goroutine body of `StartEventWatcher`: register the
foreground hook, log.Fatalf if that fails; register the create/destroy
hook, log.Fatalf if that fails; then pump messages (the deferred unhook
calls are modelled inside the exit branch of `runMessageLoop`). -/
def StartEventWatcher (s : WatcherOS) (fuel : Nat) : RunOutcome :=
  if s.hookForeground = 0 then RunOutcome.fatal fatalForegroundHookDiag
  else if s.hookCreate = 0 then RunOutcome.fatal fatalCreateHookDiag
  else runMessageLoop s 0 fuel

/-- Concrete window with a Visual Studio Code title, used in witnesses. -/
def vsCodeWindow : Window :=
  ⟨31, 31, "index.html - Visual Studio Code", true, 7⟩

/-- Concrete OS state whose foreground window is `vsCodeWindow` while the
process list contains a chrome executable: a lower-priority strategy
would match a different keyword. -/
def vsCodeOS : OSState :=
  ⟨some vsCodeWindow, fun _ => 0, fun _ => 0, fun _ => "", some ["chrome.exe"], []⟩

/-- Concrete window whose title-length query reports zero: its retrieved
title is the empty string. -/
def emptyTitleWindow : Window :=
  ⟨0, 0, "", true, 4⟩

/-- Concrete OS state with a foreground window with empty retrieved
title, an empty process list and no windows to enumerate. -/
def emptyTitleOS : OSState :=
  ⟨some emptyTitleWindow, fun _ => 0, fun _ => 0, fun _ => "", some [], []⟩

/-- Concrete OS state with an empty-titled foreground window and a
failed process enumeration. -/
def failingEnumOS : OSState :=
  ⟨some emptyTitleWindow, fun _ => 0, fun _ => 0, fun _ => "", none,
    [⟨1, 1, "x", true, 0⟩]⟩

/-- Concrete invisible window. -/
def invisibleWindow : Window :=
  ⟨7, 7, "Spotify", false, 0⟩

/-- Concrete visible window titled Spotify Premium. -/
def spotifyWindow : Window :=
  ⟨15, 15, "Spotify Premium", true, 0⟩

/-- Concrete visible window that would also match, delivered after
`spotifyWindow` in enumeration order. -/
def trailingWindow : Window :=
  ⟨9, 9, "Spotify 2", true, 0⟩

/-- Concrete OS state for the visible-window strategy: no foreground
window, empty process list, and an enumeration delivering an invisible
window, then a matching one, then a further matching one. -/
def spotifyOS : OSState :=
  ⟨none, fun _ => 0, fun _ => 0, fun _ => "", some [],
    [invisibleWindow, spotifyWindow, trailingWindow]⟩

/-- Concrete visible window with a one-letter title. -/
def letterAWindow : Window :=
  ⟨1, 1, "a", true, 0⟩

/-- Concrete second visible window with a one-letter title. -/
def letterBWindow : Window :=
  ⟨1, 1, "b", true, 0⟩

/-- Concrete OS state delivering the two one-letter windows. -/
def twoLetterWindowsOS : OSState :=
  ⟨none, fun _ => 0, fun _ => 0, fun _ => "", some [],
    [letterAWindow, letterBWindow]⟩

/-- Concrete OS state in which nothing matches the keyword chrome. -/
def noMatchOS : OSState :=
  ⟨none, fun _ => 0, fun _ => 0, fun _ => "", some ["explorer.exe"],
    [⟨8, 8, "Untitled", true, 0⟩]⟩

/-- Concrete OS state whose foreground window is a Chrome window. -/
def chromeOS : OSState :=
  ⟨some ⟨16, 16, "New Tab - Chrome", true, 2⟩, fun _ => 0, fun _ => 0,
    fun _ => "", some [], []⟩

/-- Watcher state whose foreground hook registration fails. -/
def hookFgFailState : WatcherOS :=
  ⟨0, 3, 1, 1, fun _ => ⟨0, 0, 0⟩⟩

/-- Watcher state whose create/destroy hook registration fails. -/
def hookCreateFailState : WatcherOS :=
  ⟨3, 0, 1, 1, fun _ => ⟨0, 0, 0⟩⟩

/-- Watcher state whose GetMessageW immediately returns -1 and whose
create/destroy unhook fails during shutdown. -/
def exitWithWarnState : WatcherOS :=
  ⟨3, 4, 1, 0, fun _ => ⟨4294967295, 0, 0⟩⟩

/-- Watcher state that is delivered the quit message (GetMessageW
returning zero) on every iteration, with zero errnos. -/
def quitMsgState : WatcherOS :=
  ⟨3, 4, 1, 1, fun _ => ⟨0, 0, 0⟩⟩

/-- Watcher state whose first GetMessageW call returns -1 and whose
unhook calls succeed. -/
def getMsgErrState : WatcherOS :=
  ⟨3, 4, 1, 1, fun _ => ⟨4294967295, 0, 0⟩⟩

theorem goContainsChars_eq_true_iff (sub s : List Char) :
    goContainsChars sub s = true ↔ sub <:+: s := by
  induction s with
  | nil =>
    simp [goContainsChars, List.isPrefixOf_iff_prefix]
  | cons c t ih =>
    simp [goContainsChars, List.isPrefixOf_iff_prefix, ih,
      List.infix_cons_iff]

theorem goContains_eq_true_iff (s sub : String) :
    goContains s sub = true ↔ ∃ pre post, pre ++ sub.data ++ post = s.data :=
  goContainsChars_eq_true_iff sub.data s.data

theorem firstKeywordIn_eq_some {kws : List String} {s k : String}
    (h : firstKeywordIn kws s = some k) :
    k ∈ kws ∧ goContains s k = true :=
  ⟨List.mem_of_find?_eq_some h, List.find?_some h⟩

theorem firstKeywordIn_isSome {kws : List String} {s : String} (k : String)
    (hk : k ∈ kws) (hc : goContains s k = true) :
    (firstKeywordIn kws s).isSome :=
  List.find?_isSome.2 ⟨k, hk, hc⟩

theorem firstKeywordIn_eq_of_unique {kws : List String} {s k : String}
    (hk : k ∈ kws) (hc : goContains s k = true)
    (hu : ∀ k2 ∈ kws, goContains s k2 = true → k2 = k) :
    firstKeywordIn kws s = some k := by
  induction kws with
  | nil => cases hk
  | cons a t ih =>
    by_cases ha : goContains s a = true
    · have hak : a = k := hu a (List.mem_cons_self a t) ha
      subst hak
      simp [firstKeywordIn, List.find?_cons, ha]
    · have hk2 : k ∈ t := by
        rcases List.mem_cons.1 hk with h | h
        · exact absurd (h ▸ hc) ha
        · exact h
      have hrec := ih hk2 (fun k2 h2 hc2 => hu k2 (List.mem_cons_of_mem _ h2) hc2)
      simpa [firstKeywordIn, List.find?_cons, ha] using hrec

/-- C4: a keyword matches a candidate string in the matcher exactly when
the candidate, normalized to lower case, contains the keyword as a
contiguous substring: the keyword loop reports only keywords of the
registered list that occur as contiguous substrings of the lower-cased
candidate, and it finds a keyword whenever some registered keyword so
occurs. -/
theorem keyword_match_iff_lower_substring (kws : List String) (cand k : String) :
    (firstKeywordIn kws (goToLower cand) = some k →
      k ∈ kws ∧ ∃ pre post, pre ++ k.data ++ post = (goToLower cand).data) ∧
    ((∃ k2 ∈ kws, ∃ pre post, pre ++ k2.data ++ post = (goToLower cand).data) →
      (firstKeywordIn kws (goToLower cand)).isSome = true) := by
  constructor
  · intro h
    obtain ⟨hm, hc⟩ := firstKeywordIn_eq_some h
    exact ⟨hm, (goContains_eq_true_iff _ _).1 hc⟩
  · rintro ⟨k2, hk2, pre, post, hpp⟩
    exact firstKeywordIn_isSome k2 hk2
      ((goContains_eq_true_iff _ _).2 ⟨pre, post, hpp⟩)

/-- Witness for the C4 theorem at a concrete input: with the registered
keywords chrome and code and the candidate title of a Visual Studio Code
window, the keyword loop finds a keyword. -/
theorem keyword_match_iff_lower_substring_witness :
    ("code" ∈ ["chrome", "code"] ∧
      (firstKeywordIn ["chrome", "code"]
        (goToLower "index.html - Visual Studio Code")).isSome = true) := by
  refine ⟨by decide, ?_⟩
  exact (keyword_match_iff_lower_substring ["chrome", "code"]
      "index.html - Visual Studio Code" "code").2
    ⟨"code", by decide, "index.html - visual studio ".data, [], by decide⟩

/-- C6: the text-retrieval helper returns the empty string when the
queried text length is zero (a zero-length title is no title, not an
error) and when the GetWindowTextW call fails, returns the retrieved
title text otherwise, and sizes its buffer as the separately queried
text length plus one. -/
theorem getWindowText_spec (w : Window) :
    (w.titleLen = 0 → getWindowText w = "") ∧
    (w.titleRet = 0 → getWindowText w = "") ∧
    (w.titleLen ≠ 0 → w.titleRet ≠ 0 → getWindowText w = w.titleText) ∧
    getWindowTextBufSize w = w.titleLen + 1 := by
  refine ⟨fun h => by simp [getWindowText, h], fun h => ?_, fun h1 h2 => ?_, rfl⟩
  · by_cases h1 : w.titleLen = 0 <;> simp [getWindowText, h1, h]
  · simp [getWindowText, h1, h2]

/-- Witness for the C6 theorem at concrete windows: a window with a
zero-length title yields the empty string, and one whose both queries
succeed yields its title text. -/
theorem getWindowText_spec_witness :
    getWindowText ⟨0, 7, "stale", true, 1⟩ = "" ∧
      getWindowText ⟨7, 7, "Spotify", true, 1⟩ = "Spotify" :=
  ⟨(getWindowText_spec ⟨0, 7, "stale", true, 1⟩).1 rfl,
    (getWindowText_spec ⟨7, 7, "Spotify", true, 1⟩).2.2.1 (by decide) (by decide)⟩

/-- C5: the foreground strategy releases every process handle it opens
before returning, on every exit path: the list of handles passed to
CloseHandle equals the list of handles OpenProcess returned, for every
OS state and keyword list. -/
theorem fg_process_handles_balanced (os : OSState) (keywords : List String) :
    (getForegroundTargetFull os keywords).2.2 =
      (getForegroundTargetFull os keywords).2.1 := by
  cases hf : os.foreground with
  | none => simp [getForegroundTargetFull, hf]
  | some w =>
    cases hm : (if getWindowText w ≠ "" then
        firstKeywordIn keywords (goToLower (getWindowText w)) else none) with
    | some k => simp [getForegroundTargetFull, hf, hm]
    | none =>
      simp [getForegroundTargetFull, hf, hm, fgProcessStep, procCallErrNonNil]

theorem firstKeywordIn_nil (s : String) : firstKeywordIn [] s = none :=
  rfl

theorem fgProcessStep_no_match (os : OSState) (w : Window) (kws : List String) :
    (fgProcessStep os w kws).1 = ("", false) := by
  simp [fgProcessStep, procCallErrNonNil]

theorem getForegroundTarget_none {os : OSState} (kws : List String)
    (hf : os.foreground = none) :
    getForegroundTarget os kws = ("", false) := by
  simp [getForegroundTarget, getForegroundTargetFull, hf]

theorem getForegroundTarget_title_match {os : OSState} {kws : List String}
    {w : Window} {k : String} (hf : os.foreground = some w)
    (ht : getWindowText w ≠ "")
    (hm : firstKeywordIn kws (goToLower (getWindowText w)) = some k) :
    getForegroundTarget os kws = (k, true) := by
  simp [getForegroundTarget, getForegroundTargetFull, hf, ht, hm]

theorem getForegroundTarget_empty_title {os : OSState} {w : Window}
    (kws : List String) (hf : os.foreground = some w)
    (ht : getWindowText w = "") :
    getForegroundTarget os kws = ("", false) := by
  simp [getForegroundTarget, getForegroundTargetFull, hf, ht,
    fgProcessStep, procCallErrNonNil]

theorem getForegroundTarget_false_eq {os : OSState} {kws : List String}
    (h : (getForegroundTarget os kws).2 = false) :
    getForegroundTarget os kws = ("", false) := by
  cases hf : os.foreground with
  | none => exact getForegroundTarget_none kws hf
  | some w =>
    cases hm : (if getWindowText w ≠ "" then
        firstKeywordIn kws (goToLower (getWindowText w)) else none) with
    | some k =>
      rw [getForegroundTarget, getForegroundTargetFull, hf] at h
      simp [hm] at h
    | none =>
      simp [getForegroundTarget, getForegroundTargetFull, hf, hm,
        fgProcessStep, procCallErrNonNil]

theorem getForegroundTarget_mem {os : OSState} {kws : List String}
    (h : (getForegroundTarget os kws).2 = true) :
    (getForegroundTarget os kws).1 ∈ kws := by
  cases hf : os.foreground with
  | none =>
    rw [getForegroundTarget_none kws hf] at h
    cases h
  | some w =>
    cases hm : (if getWindowText w ≠ "" then
        firstKeywordIn kws (goToLower (getWindowText w)) else none) with
    | some k =>
      have hk : k ∈ kws := by
        by_cases ht : getWindowText w ≠ ""
        · simp [ht] at hm
          exact (firstKeywordIn_eq_some hm).1
        · simp [ht] at hm
      simp [getForegroundTarget, getForegroundTargetFull, hf, hm, hk]
    | none =>
      simp [getForegroundTarget, getForegroundTargetFull, hf, hm,
        fgProcessStep, procCallErrNonNil] at h

theorem procLoop_all_none {kws : List String} {ps : List String}
    (h : ∀ p ∈ ps, firstKeywordIn kws (goToLower p) = none) :
    procLoop kws ps = ("", false) := by
  induction ps with
  | nil => rfl
  | cons p t ih =>
    have hp := h p (List.mem_cons_self p t)
    simp [procLoop, hp, ih (fun q hq => h q (List.mem_cons_of_mem _ hq))]

theorem procLoop_false_eq {kws : List String} {ps : List String}
    (h : (procLoop kws ps).2 = false) :
    procLoop kws ps = ("", false) := by
  induction ps with
  | nil => rfl
  | cons p t ih =>
    cases hm : firstKeywordIn kws (goToLower p) with
    | some k => simp [procLoop, hm] at h
    | none =>
      simp [procLoop, hm] at h ⊢
      exact ih h

theorem procLoop_mem {kws : List String} {ps : List String}
    (h : (procLoop kws ps).2 = true) :
    (procLoop kws ps).1 ∈ kws := by
  induction ps with
  | nil => simp [procLoop] at h
  | cons p t ih =>
    cases hm : firstKeywordIn kws (goToLower p) with
    | some k =>
      simp [procLoop, hm]
      exact (firstKeywordIn_eq_some hm).1
    | none =>
      simp [procLoop, hm] at h ⊢
      exact ih h

theorem isProcessActive_enum_failure {os : OSState} (kws : List String)
    (h : os.procEnum = none) :
    isProcessActive os kws = ("", false) := by
  simp [isProcessActive, h]

theorem isProcessActive_false_eq {os : OSState} {kws : List String}
    (h : (isProcessActive os kws).2 = false) :
    isProcessActive os kws = ("", false) := by
  cases hp : os.procEnum with
  | none => simp [isProcessActive, hp]
  | some ps =>
    rw [isProcessActive, hp] at h ⊢
    exact procLoop_false_eq h

theorem isProcessActive_mem {os : OSState} {kws : List String}
    (h : (isProcessActive os kws).2 = true) :
    (isProcessActive os kws).1 ∈ kws := by
  cases hp : os.procEnum with
  | none => rw [isProcessActive, hp] at h; cases h
  | some ps =>
    rw [isProcessActive, hp] at h ⊢
    exact procLoop_mem h

theorem enumCallback_of_matches_none {kws : List String} {w : Window}
    (h : windowMatches kws w = none) (f : String) :
    enumCallback kws f w = (f, 1) := by
  by_cases hv : w.visible = true
  · by_cases ht : getWindowText w ≠ ""
    · have hm : firstKeywordIn kws (goToLower (getWindowText w)) = none := by
        simpa [windowMatches, hv, ht] using h
      simp [enumCallback, hv, ht, hm]
    · simp [enumCallback, hv, ht]
  · have hv2 : w.visible = false := by
      cases hvis : w.visible
      · rfl
      · exact absurd hvis hv
    simp [enumCallback, hv2]

theorem enumCallback_of_matches_some {kws : List String} {w : Window}
    {k : String} (h : windowMatches kws w = some k) (f : String) :
    enumCallback kws f w = (k, 0) := by
  by_cases hv : w.visible = true
  · by_cases ht : getWindowText w ≠ ""
    · have hm : firstKeywordIn kws (goToLower (getWindowText w)) = some k := by
        simpa [windowMatches, hv, ht] using h
      simp [enumCallback, hv, ht, hm]
    · simp [windowMatches, hv, ht] at h
  · simp [windowMatches, hv] at h

theorem enumCallback_stop_mem {kws : List String} {w : Window} {f : String}
    (h : (enumCallback kws f w).2 = 0) :
    (enumCallback kws f w).1 ∈ kws := by
  by_cases hv : w.visible = false
  · simp [enumCallback, hv] at h
  · by_cases ht : getWindowText w ≠ ""
    · cases hm : firstKeywordIn kws (goToLower (getWindowText w)) with
      | some k =>
        simp [enumCallback, hv, ht, hm]
        exact (firstKeywordIn_eq_some hm).1
      | none => simp [enumCallback, hv, ht, hm] at h
    · simp [enumCallback, hv, ht] at h

theorem enumCallback_continue_found {kws : List String} {w : Window}
    {f : String} (h : (enumCallback kws f w).2 ≠ 0) :
    (enumCallback kws f w).1 = f := by
  by_cases hv : w.visible = false
  · simp [enumCallback, hv]
  · by_cases ht : getWindowText w ≠ ""
    · cases hm : firstKeywordIn kws (goToLower (getWindowText w)) with
      | some k => simp [enumCallback, hv, ht, hm] at h
      | none => simp [enumCallback, hv, ht, hm]
    · simp [enumCallback, hv, ht]

theorem enumWindowsRun_all_none {kws : List String} {ws : List Window}
    (h : ∀ w ∈ ws, windowMatches kws w = none) (f : String) :
    enumWindowsRun kws f ws = (f, ws) := by
  induction ws with
  | nil => rfl
  | cons a t ih =>
    have ha := enumCallback_of_matches_none (h a (List.mem_cons_self a t)) f
    simp [enumWindowsRun, ha, ih (fun w hw => h w (List.mem_cons_of_mem _ hw))]

theorem enumWindowsRun_first_match (kws : List String) (f : String)
    (pre post : List Window) (w : Window) (k : String)
    (hpre : ∀ w2 ∈ pre, windowMatches kws w2 = none)
    (hm : windowMatches kws w = some k) :
    enumWindowsRun kws f (pre ++ w :: post) = (k, pre ++ [w]) := by
  induction pre generalizing f with
  | nil =>
    simp [enumWindowsRun, enumCallback_of_matches_some hm f]
  | cons a t ih =>
    have ha := enumCallback_of_matches_none (hpre a (List.mem_cons_self a t)) f
    have hrec := ih f (fun w2 hw2 => hpre w2 (List.mem_cons_of_mem _ hw2))
    simp [enumWindowsRun, ha, hrec]

theorem enumWindowsRun_found_mem (kws : List String) (ws : List Window)
    (f : String) :
    (enumWindowsRun kws f ws).1 = f ∨ (enumWindowsRun kws f ws).1 ∈ kws := by
  induction ws generalizing f with
  | nil => exact Or.inl rfl
  | cons a t ih =>
    by_cases h0 : (enumCallback kws f a).2 = 0
    · right
      have := enumCallback_stop_mem h0
      simpa [enumWindowsRun, h0] using this
    · have hf := enumCallback_continue_found h0
      rcases ih (enumCallback kws f a).1 with he | hmem
      · left
        simpa [enumWindowsRun, h0, hf] using he.trans hf
      · right
        simpa [enumWindowsRun, h0] using hmem

theorem isWindowActive_false_eq {os : OSState} {kws : List String}
    (h : (isWindowActive os kws).2 = false) :
    isWindowActive os kws = ("", false) := by
  by_cases hne : (enumWindowsRun kws "" os.winEnum).1 ≠ ""
  · rw [isWindowActive] at h
    simp [hne] at h
  · simp [isWindowActive, hne]

theorem isWindowActive_mem {os : OSState} {kws : List String}
    (h : (isWindowActive os kws).2 = true) :
    (isWindowActive os kws).1 ∈ kws := by
  by_cases hne : (enumWindowsRun kws "" os.winEnum).1 ≠ ""
  · rcases enumWindowsRun_found_mem kws os.winEnum "" with he | hmem
    · exact absurd he hne
    · simpa [isWindowActive, hne] using hmem
  · rw [isWindowActive] at h
    simp [hne] at h

theorem isWindowActive_all_none {os : OSState} {kws : List String}
    (h : ∀ w ∈ os.winEnum, windowMatches kws w = none) :
    isWindowActive os kws = ("", false) := by
  simp [isWindowActive, enumWindowsRun_all_none h]

/-- C1 (amended): for every keyword set and every OS state in which the
foreground window's retrieved title is nonempty and contains exactly one
registered keyword k, `FirstActiveTarget` returns (k, true) and only the
foreground strategy is consulted, even if a lower-priority strategy
would have matched a different keyword.  The nonemptiness proviso is
needed because a window whose retrieved title is empty skips the title
check entirely, so the empty-string keyword, which the empty title
contains, is not reported from the foreground strategy. -/
theorem foreground_unique_match_wins (targets : List (String × String))
    (os : OSState) (w : Window) (k : String)
    (hf : os.foreground = some w)
    (ht : getWindowText w ≠ "")
    (hk : k ∈ targets.map Prod.fst)
    (hc : goContains (goToLower (getWindowText w)) k = true)
    (hu : ∀ k2 ∈ targets.map Prod.fst,
      goContains (goToLower (getWindowText w)) k2 = true → k2 = k) :
    FirstActiveTarget targets os = (k, true) ∧
      consultedStrategies targets os = [Strategy.foreground] := by
  have hm := firstKeywordIn_eq_of_unique hk hc hu
  have hfg := getForegroundTarget_title_match hf ht hm
  constructor
  · simp [FirstActiveTarget, hfg]
  · simp [consultedStrategies, hfg]

/-- Witness for the C1 theorem: with keywords chrome and code, a
foreground Visual Studio Code window and a running chrome process, the
result is (code, true) and only the foreground strategy is consulted. -/
theorem foreground_unique_match_wins_witness :
    FirstActiveTarget [("chrome", "Browser"), ("code", "Editor")] vsCodeOS =
        ("code", true) ∧
      consultedStrategies [("chrome", "Browser"), ("code", "Editor")] vsCodeOS =
        [Strategy.foreground] :=
  foreground_unique_match_wins [("chrome", "Browser"), ("code", "Editor")]
    vsCodeOS vsCodeWindow "code" rfl (by decide) (by decide) (by decide)
    (by decide)

/-- C1 counterexample: the claim as stated fails at the degenerate input
in which the registered keyword is the empty string and the retrieved
title of the foreground window is empty.  The empty title contains the
empty string, which is the only registered keyword, so the claim
predicts the result (empty string, true); the code skips the title check
for an empty title and, with an empty process list and no windows,
returns found = false. -/
theorem foreground_empty_title_empty_keyword_cex :
    emptyTitleOS.foreground = some emptyTitleWindow ∧
      getWindowText emptyTitleWindow = "" ∧
      goContains (goToLower (getWindowText emptyTitleWindow)) "" = true ∧
      FirstActiveTarget [("", "Label")] emptyTitleOS = ("", false) := by
  exact ⟨rfl, rfl, by decide, by decide⟩

/-- C2: failures inside the matching strategies are swallowed, never
raised, and never reported as a match: the owning-process sub-step of
the foreground strategy always yields no match (every one of its failure
exits, and in fact every exit, returns found = false); a foreground
window with an empty retrieved title makes the foreground strategy yield
no match; a failed process enumeration makes the process-list strategy
yield no match; and when the foreground strategy found nothing and the
process enumeration failed, `FirstActiveTarget` falls through to the
visible-window strategy, whose result it returns unchanged. -/
theorem strategy_failures_fall_through (targets : List (String × String))
    (os : OSState) (w : Window) :
    ((fgProcessStep os w (targets.map Prod.fst)).1 = ("", false)) ∧
    (os.foreground = some w → getWindowText w = "" →
      getForegroundTarget os (targets.map Prod.fst) = ("", false)) ∧
    (os.procEnum = none →
      isProcessActive os (targets.map Prod.fst) = ("", false)) ∧
    ((getForegroundTarget os (targets.map Prod.fst)).2 = false →
      os.procEnum = none →
      FirstActiveTarget targets os = isWindowActive os (targets.map Prod.fst)) := by
  refine ⟨fgProcessStep_no_match os w _, ?_, ?_, ?_⟩
  · intro hf ht
    exact getForegroundTarget_empty_title _ hf ht
  · intro hp
    exact isProcessActive_enum_failure _ hp
  · intro hfg hp
    have hpr : isProcessActive os (targets.map Prod.fst) = ("", false) :=
      isProcessActive_enum_failure (targets.map Prod.fst) hp
    by_cases hwi : (isWindowActive os (targets.map Prod.fst)).2 = true
    · simp [FirstActiveTarget, hfg, hpr, hwi]
      rw [← hwi]
    · have hwi2 : (isWindowActive os (targets.map Prod.fst)).2 = false := by
        simpa using hwi
      have hwi3 := isWindowActive_false_eq hwi2
      simp [FirstActiveTarget, hfg, hpr, hwi3]

/-- Witness for the C2 theorem: an OS state whose foreground window has
an empty retrieved title and whose process enumeration fails: both
strategies yield no match and the algorithm falls through to the
visible-window strategy. -/
theorem strategy_failures_fall_through_witness :
    getForegroundTarget failingEnumOS ["chrome"] = ("", false) ∧
      isProcessActive failingEnumOS ["chrome"] = ("", false) ∧
      FirstActiveTarget [("chrome", "Browser")] failingEnumOS =
        isWindowActive failingEnumOS ["chrome"] := by
  have h := strategy_failures_fall_through [("chrome", "Browser")]
    failingEnumOS emptyTitleWindow
  have hfg : getForegroundTarget failingEnumOS ["chrome"] = ("", false) :=
    h.2.1 rfl rfl
  refine ⟨hfg, h.2.2.1 rfl, h.2.2.2 ?_ rfl⟩
  show (getForegroundTarget failingEnumOS ["chrome"]).2 = false
  rw [hfg]

/-- C3 (amended): the visible-window strategy skips windows that are not
visible, examines the delivered windows in enumeration order, and stops
the enumeration at the first visible window whose nonempty title
contains a keyword, examining no window past it; the first keyword
matching that window is returned with found = true provided that keyword
is nonempty.  The proviso is needed because the code uses the empty
string as the not-found sentinel for the captured variable that carries
the match out of the enumeration callback, so a match on the empty
keyword stops the enumeration but is reported as found = false. -/
theorem visible_window_first_match (os : OSState) (kws : List String)
    (pre post : List Window) (w : Window) (k : String)
    (hw : os.winEnum = pre ++ w :: post)
    (hpre : ∀ w2 ∈ pre, windowMatches kws w2 = none)
    (hm : windowMatches kws w = some k)
    (hk : k ≠ "") :
    isWindowActive os kws = (k, true) ∧
      windowsExamined os kws = pre ++ [w] := by
  have he := enumWindowsRun_first_match kws "" pre post w k hpre hm
  constructor
  · rw [isWindowActive, hw, he]
    simp [hk]
  · rw [windowsExamined, hw, he]

/-- Witness for the C3 theorem: with keyword spotify, an invisible
window followed by a matching Spotify Premium window and a further
matching window, the strategy returns (spotify, true) and the callback
examines only the windows up to and including the first match. -/
theorem visible_window_first_match_witness :
    isWindowActive spotifyOS ["spotify"] = ("spotify", true) ∧
      windowsExamined spotifyOS ["spotify"] = [invisibleWindow, spotifyWindow] :=
  visible_window_first_match spotifyOS ["spotify"] [invisibleWindow]
    [trailingWindow] spotifyWindow "spotify" rfl (by decide) (by decide)
    (by decide)

/-- C3 counterexample: with the empty string as the only keyword and two
visible one-letter-titled windows, the first window matches (its
lower-cased title contains the empty keyword) and the enumeration stops
there — only the first window is examined — but the strategy reports
found = false instead of returning the keyword found, because the found
keyword equals the not-found sentinel. -/
theorem visible_window_empty_keyword_cex :
    twoLetterWindowsOS.winEnum = [letterAWindow, letterBWindow] ∧
      windowMatches [""] letterAWindow = some "" ∧
      windowsExamined twoLetterWindowsOS [""] = [letterAWindow] ∧
      isWindowActive twoLetterWindowsOS [""] = ("", false) := by
  exact ⟨rfl, by decide, by decide, by decide⟩

theorem getForegroundTarget_title_none {os : OSState} {kws : List String}
    {w : Window} (hf : os.foreground = some w)
    (hm : firstKeywordIn kws (goToLower (getWindowText w)) = none) :
    getForegroundTarget os kws = ("", false) := by
  by_cases ht : getWindowText w = ""
  · exact getForegroundTarget_empty_title kws hf ht
  · simp [getForegroundTarget, getForegroundTargetFull, hf, ht, hm,
      fgProcessStep, procCallErrNonNil]

theorem getForegroundTarget_nil_keywords (os : OSState) :
    getForegroundTarget os [] = ("", false) := by
  cases hf : os.foreground with
  | none => exact getForegroundTarget_none [] hf
  | some w => exact getForegroundTarget_title_none hf (firstKeywordIn_nil _)

theorem windowMatches_nil (w : Window) : windowMatches [] w = none := by
  simp [windowMatches, firstKeywordIn]

/-- C7: with an empty keyword mapping, `FirstActiveTarget` returns
found = false for every OS state; and with no foreground window, no
running process whose lower-cased executable name contains a keyword,
and no visible window whose nonempty lower-cased title contains a
keyword, it also returns found = false (with the empty string as the
keyword). -/
theorem firstActiveTarget_no_match_false (targets : List (String × String))
    (os : OSState) :
    FirstActiveTarget [] os = ("", false) ∧
    (os.foreground = none →
      (∀ ps, os.procEnum = some ps →
        ∀ p ∈ ps, firstKeywordIn (targets.map Prod.fst) (goToLower p) = none) →
      (∀ w2 ∈ os.winEnum, windowMatches (targets.map Prod.fst) w2 = none) →
      FirstActiveTarget targets os = ("", false)) := by
  constructor
  · have hfg := getForegroundTarget_nil_keywords os
    have hpr : isProcessActive os [] = ("", false) := by
      cases hp : os.procEnum with
      | none => exact isProcessActive_enum_failure [] hp
      | some ps =>
        rw [isProcessActive, hp]
        exact procLoop_all_none (fun p _ => firstKeywordIn_nil _)
    have hwi : isWindowActive os [] = ("", false) :=
      isWindowActive_all_none (fun w2 _ => windowMatches_nil w2)
    simp [FirstActiveTarget, hfg, hpr, hwi]
  · intro hf hp hw
    have hfg := getForegroundTarget_none (targets.map Prod.fst) hf
    have hpr : isProcessActive os (targets.map Prod.fst) = ("", false) := by
      cases hpe : os.procEnum with
      | none => exact isProcessActive_enum_failure _ hpe
      | some ps =>
        rw [isProcessActive, hpe]
        exact procLoop_all_none (hp ps hpe)
    have hwi := isWindowActive_all_none hw
    simp [FirstActiveTarget, hfg, hpr, hwi]

/-- Witness for the C7 theorem: an OS state with no foreground window, an
explorer process and an untitled-matching-nothing window reports no
match for the chrome keyword, and no match for the empty mapping. -/
theorem firstActiveTarget_no_match_false_witness :
    FirstActiveTarget [] noMatchOS = ("", false) ∧
      FirstActiveTarget [("chrome", "Browser")] noMatchOS = ("", false) :=
  ⟨(firstActiveTarget_no_match_false [("chrome", "Browser")] noMatchOS).1,
    (firstActiveTarget_no_match_false [("chrome", "Browser")] noMatchOS).2 rfl
      (fun ps hps => by injection hps with h; subst h; decide)
      (by decide)⟩

/-- C10: the result of `FirstActiveTarget` is well-formed for every
target mapping and OS state: a (k, true) result reports a registered
keyword, and a found = false result carries the empty string as the
keyword. -/
theorem firstActiveTarget_wellformed (targets : List (String × String))
    (os : OSState) :
    ((FirstActiveTarget targets os).2 = true →
      (FirstActiveTarget targets os).1 ∈ targets.map Prod.fst) ∧
    ((FirstActiveTarget targets os).2 = false →
      (FirstActiveTarget targets os).1 = "") := by
  by_cases hfg : (getForegroundTarget os (targets.map Prod.fst)).2 = true
  · have hmem := getForegroundTarget_mem hfg
    constructor
    · intro _
      simpa [FirstActiveTarget, hfg] using hmem
    · intro hfalse
      simp [FirstActiveTarget, hfg] at hfalse
  · have hfg2 : (getForegroundTarget os (targets.map Prod.fst)).2 = false := by
      simpa using hfg
    by_cases hpr : (isProcessActive os (targets.map Prod.fst)).2 = true
    · have hmem := isProcessActive_mem hpr
      constructor
      · intro _
        simpa [FirstActiveTarget, hfg2, hpr] using hmem
      · intro hfalse
        simp [FirstActiveTarget, hfg2, hpr] at hfalse
    · have hpr2 : (isProcessActive os (targets.map Prod.fst)).2 = false := by
        simpa using hpr
      by_cases hwi : (isWindowActive os (targets.map Prod.fst)).2 = true
      · have hmem := isWindowActive_mem hwi
        constructor
        · intro _
          simpa [FirstActiveTarget, hfg2, hpr2, hwi] using hmem
        · intro hfalse
          simp [FirstActiveTarget, hfg2, hpr2, hwi] at hfalse
      · have hwi2 : (isWindowActive os (targets.map Prod.fst)).2 = false := by
          simpa using hwi
        constructor
        · intro htrue
          simp [FirstActiveTarget, hfg2, hpr2, hwi2] at htrue
        · intro _
          simp [FirstActiveTarget, hfg2, hpr2, hwi2]

/-- Witness for the C10 theorem: with a Chrome foreground window the
returned keyword is a registered one. -/
theorem firstActiveTarget_wellformed_witness :
    (FirstActiveTarget [("chrome", "Browser")] chromeOS).1 ∈
      [("chrome", "Browser")].map Prod.fst :=
  (firstActiveTarget_wellformed [("chrome", "Browser")] chromeOS).1 (by decide)

/-- C8: a failed registration of either OS event hook at startup is
fatal — the run ends in the log.Fatalf outcome with the corresponding
diagnostic and no message is ever pumped — whereas a failed unhook
during shutdown only contributes a logged warning to an otherwise
normal exited outcome and is never escalated: the loop exit is the
exited outcome carrying exactly the warnings of the failed unhook
calls. -/
theorem startEventWatcher_hook_failure_fatal (s : WatcherOS) (fuel : Nat) :
    (s.hookForeground = 0 →
      StartEventWatcher s fuel = RunOutcome.fatal fatalForegroundHookDiag) ∧
    (s.hookForeground ≠ 0 → s.hookCreate = 0 →
      StartEventWatcher s fuel = RunOutcome.fatal fatalCreateHookDiag) ∧
    (s.hookForeground ≠ 0 → s.hookCreate ≠ 0 →
      getRetIsNegOne (s.msgs 0).getRet = true →
      StartEventWatcher s (fuel + 1) = RunOutcome.exited (shutdownWarnings s)) ∧
    (s.unhookCreateRet = 0 ↔ warnUnhookCreateDiag ∈ shutdownWarnings s) ∧
    (s.unhookForegroundRet = 0 ↔ warnUnhookForegroundDiag ∈ shutdownWarnings s) := by
  refine ⟨?_, ?_, ?_, ?_, ?_⟩
  · intro h
    simp [StartEventWatcher, h]
  · intro h1 h2
    simp [StartEventWatcher, h1, h2]
  · intro h1 h2 h3
    simp [StartEventWatcher, h1, h2, runMessageLoop, h3]
  · by_cases hc : s.unhookCreateRet = 0 <;> by_cases hf : s.unhookForegroundRet = 0 <;>
      simp [shutdownWarnings, hc, hf, warnUnhookCreateDiag,
        warnUnhookForegroundDiag]
  · by_cases hc : s.unhookCreateRet = 0 <;> by_cases hf : s.unhookForegroundRet = 0 <;>
      simp [shutdownWarnings, hc, hf, warnUnhookCreateDiag,
        warnUnhookForegroundDiag]

/-- Witness for the C8 theorem at concrete watcher states: each hook
registration failure is fatal with its own diagnostic, and an exit with
a failed create/destroy unhook is a non-fatal exited outcome whose
warnings contain the corresponding warning. -/
theorem startEventWatcher_hook_failure_fatal_witness :
    StartEventWatcher hookFgFailState 3 = RunOutcome.fatal fatalForegroundHookDiag ∧
      StartEventWatcher hookCreateFailState 3 = RunOutcome.fatal fatalCreateHookDiag ∧
      StartEventWatcher exitWithWarnState 3 =
        RunOutcome.exited (shutdownWarnings exitWithWarnState) ∧
      warnUnhookCreateDiag ∈ shutdownWarnings exitWithWarnState :=
  ⟨(startEventWatcher_hook_failure_fatal hookFgFailState 3).1 rfl,
    (startEventWatcher_hook_failure_fatal hookCreateFailState 3).2.1
      (by decide) rfl,
    (startEventWatcher_hook_failure_fatal exitWithWarnState 2).2.2.1
      (by decide) (by decide) (by decide),
    ((startEventWatcher_hook_failure_fatal exitWithWarnState 2).2.2.2.1).1 rfl⟩

/-- C9 (amended): the background message loop exits exactly when the
GetMessageW result truncated to int32 equals -1 (running the deferred
unhooks and yielding the exited outcome); a message whose observed
last error after TranslateMessage, or then after DispatchMessageW, is
nonzero terminates the whole process fatally; on every other pumped
message — including the quit sentinel, for which GetMessageW returns
0, not -1 — the loop translates, dispatches and continues, so a state
in which GetMessageW never returns -1 and the errnos stay zero keeps
the loop running forever. -/
theorem messageLoop_exit_characterization (s : WatcherOS) (i fuel : Nat) :
    (getRetIsNegOne (s.msgs i).getRet = true →
      runMessageLoop s i (fuel + 1) = RunOutcome.exited (shutdownWarnings s)) ∧
    (getRetIsNegOne (s.msgs i).getRet = false → (s.msgs i).translateErrno ≠ 0 →
      runMessageLoop s i (fuel + 1) = RunOutcome.fatal fatalTranslateDiag) ∧
    (getRetIsNegOne (s.msgs i).getRet = false → (s.msgs i).translateErrno = 0 →
      (s.msgs i).dispatchErrno ≠ 0 →
      runMessageLoop s i (fuel + 1) = RunOutcome.fatal fatalDispatchDiag) ∧
    (getRetIsNegOne (s.msgs i).getRet = false → (s.msgs i).translateErrno = 0 →
      (s.msgs i).dispatchErrno = 0 →
      runMessageLoop s i (fuel + 1) = runMessageLoop s (i + 1) fuel) ∧
    ((∀ j, getRetIsNegOne (s.msgs j).getRet = false ∧
        (s.msgs j).translateErrno = 0 ∧ (s.msgs j).dispatchErrno = 0) →
      runMessageLoop s i fuel = RunOutcome.running) := by
  refine ⟨?_, ?_, ?_, ?_, ?_⟩
  · intro h
    simp [runMessageLoop, h]
  · intro h1 h2
    simp [runMessageLoop, h1, h2]
  · intro h1 h2 h3
    simp [runMessageLoop, h1, h2, h3]
  · intro h1 h2 h3
    simp [runMessageLoop, h1, h2, h3]
  · intro hall
    induction fuel generalizing i with
    | zero => rfl
    | succ n ih =>
      obtain ⟨h1, h2, h3⟩ := hall i
      have hrec := ih (i + 1)
      simp [runMessageLoop, h1, h2, h3, hrec]

/-- Witness for the C9 theorem: a state that is delivered only quit
messages keeps the loop running for four further iterations, and a
state whose first GetMessageW call returns -1 exits at once with the
shutdown warnings. -/
theorem messageLoop_exit_characterization_witness :
    runMessageLoop quitMsgState 0 4 = RunOutcome.running ∧
      runMessageLoop getMsgErrState 0 1 =
        RunOutcome.exited (shutdownWarnings getMsgErrState) :=
  ⟨(messageLoop_exit_characterization quitMsgState 0 4).2.2.2.2
      (fun _ => ⟨rfl, rfl, rfl⟩),
    (messageLoop_exit_characterization getMsgErrState 0 0).1 (by decide)⟩

/-- C9 counterexample: the claim that the background context exits
exactly on delivery of the quit sentinel fails in both directions: with
both hooks registered, a state that is delivered the quit message
(GetMessageW returning 0) on every iteration is still running after
five iterations, while a state whose first GetMessageW call returns -1
— an error, with no quit message ever delivered — exits the loop
immediately. -/
theorem messageLoop_quit_not_exit_cex :
    (quitMsgState.msgs 0).getRet = 0 ∧
      StartEventWatcher quitMsgState 5 = RunOutcome.running ∧
      (getMsgErrState.msgs 0).getRet = 4294967295 ∧
      StartEventWatcher getMsgErrState 1 = RunOutcome.exited [] := by
  exact ⟨rfl, by decide, rfl, by decide⟩
